import Mathlib

/-!
Shallow embedding of the blog application in `src/main.py`: the three-table
data model (users, blog_posts, comments), the authentication and admin
guards, and the route handlers `get_all_posts`, `register`, `login`,
`show_post`, `add_new_post`, `edit_post`, `delete_post`, plus the startup
configuration line for the session secret.

Conventions of the embedding:
* The database is a record of three tables (lists in insertion order)
  together with the auto-increment counters of the storage engine.
* A handler takes the database, the resolved current user
  (`Option User`, `none` = anonymous), its URL arguments, and the submitted
  form as `Option form` (`some` = `validate_on_submit()` returned true);
  it returns the new database and an outcome describing the HTTP result.
* Password hashing is the opaque one-way function of the spec: the
  handlers are parameterised by `genHash` / `checkHash`.
* An uncaught exception raised inside a handler (SQLAlchemy
  `IntegrityError` on a uniqueness violation, `AttributeError` /
  unmapped-instance errors on a `None` lookup result) is an explicit
  crash outcome; the database is returned unchanged because the
  transaction never commits.
-/

namespace Blog

/-- ASCII lower-casing of a character code: `A`-`Z` (65-90) map to
`a`-`z` (97-122), everything else is unchanged. -/
def lowerCode (n : Nat) : Nat :=
  if 65 ≤ n ∧ n ≤ 90 then n + 32 else n

/-- ASCII upper-casing of a character code: `a`-`z` map to `A`-`Z`,
everything else is unchanged. -/
def upperCode (n : Nat) : Nat :=
  if 97 ≤ n ∧ n ≤ 122 then n - 32 else n

/-- An ASCII letter code (the cased characters of the ASCII fragment). -/
def isAlphaCode (n : Nat) : Prop :=
  (65 ≤ n ∧ n ≤ 90) ∨ (97 ≤ n ∧ n ≤ 122)

instance (n : Nat) : Decidable (isAlphaCode n) := by
  unfold isAlphaCode; infer_instance

/-- The ASCII fragment of Python `str.title`, on character codes: a cased
character following a non-cased one is upper-cased, a cased character
following a cased one is lower-cased; the flag records whether the
previous character was cased. -/
def titleCodes : Bool → List Nat → List Nat
  | _, [] => []
  | prevCased, c :: cs =>
    if isAlphaCode c then
      (if prevCased then lowerCode c else upperCode c) :: titleCodes true cs
    else
      c :: titleCodes false cs

/-- The character codes of a string. -/
def strCodes (s : String) : List Nat :=
  s.data.map Char.toNat

/-- Rebuild a string from character codes. -/
def codesStr (l : List Nat) : String :=
  String.mk (l.map Char.ofNat)

/-- Embedding of Python `str.title()` as applied to the submitted name in
`register` (`form.name.data.title()`), on the ASCII fragment. -/
def pyTitle (s : String) : String :=
  codesStr (titleCodes false (strCodes s))

/-- A row of the `users` table (`class User`): id (primary key,
auto-increment), unique email, stored password hash, display name. -/
structure User where
  id : Nat
  email : String
  password : String
  name : String
deriving DecidableEq

/-- The value held by the `author` attribute of a blog post. The source
stores a `User` reference on creation (`BlogPost(author=current_user)`);
the edit handler attempts to overwrite it with a plain name string
(`post.author = current_user.name`), which raises at assignment time and
never persists, so `disp` is never stored — the constructor records the
attempted assignment's shape. -/
inductive AuthorVal where
  | ref (userId : Nat)
  | disp (name : String)
deriving DecidableEq

/-- A row of the `blog_posts` table (`class BlogPost`): id (primary key,
auto-increment), author, unique title, subtitle, display-formatted date
string, body, image URL. -/
structure BlogPost where
  id : Nat
  author : AuthorVal
  title : String
  subtitle : String
  date : String
  body : String
  imgUrl : String
deriving DecidableEq

/-- A row of the `comments` table (`class Comment`): id (primary key,
auto-increment), nullable author foreign key, nullable parent-post
foreign key, text. -/
structure Comment where
  id : Nat
  authorRef : Option Nat
  postRef : Option Nat
  text : String
deriving DecidableEq

/-- The persistent store: the three tables in insertion order plus the
auto-increment counters of the storage engine. -/
structure DB where
  users : List User
  posts : List BlogPost
  comments : List Comment
  nextUserId : Nat
  nextPostId : Nat
  nextCommentId : Nat
deriving DecidableEq

/-- The freshly created database (`db.create_all()` on an empty file):
no rows, every auto-increment counter starts at 1. -/
def initDB : DB :=
  { users := [], posts := [], comments := []
    nextUserId := 1, nextPostId := 1, nextCommentId := 1 }

/-- The fields of `RegisterForm`. -/
structure RegForm where
  email : String
  password : String
  name : String
deriving DecidableEq

/-- The fields of `LoginForm`. -/
structure LoginForm where
  email : String
  password : String
deriving DecidableEq

/-- The fields of `CreatePostForm`. -/
structure PostForm where
  title : String
  subtitle : String
  body : String
  imgUrl : String
deriving DecidableEq

/-- The field of `CommentForm` (`comment_text`). -/
structure CommentFormData where
  commentText : String
deriving DecidableEq

/-- Whether some user row already holds the given email (the unique
constraint on `users.email` checked by the storage engine at commit). -/
def emailTaken (db : DB) (e : String) : Bool :=
  db.users.any (fun u => decide (u.email = e))

/-- Whether some post row already holds the given title (the unique
constraint on `blog_posts.title` checked by the storage engine at
commit). -/
def titleTaken (db : DB) (t : String) : Bool :=
  db.posts.any (fun p => decide (p.title = t))

/-- Outcome of the `register` handler. -/
inductive RegisterOutcome where
  | loggedInRedirect (sessionUid : Nat)
  | renderForm
  | integrityError
deriving DecidableEq

/-- The `register` handler. On a valid submission it hashes the password,
title-cases the submitted name, inserts the new user and commits; there
is no duplicate-email check, so when the email is already taken the
commit raises an uncaught `IntegrityError` (crash, nothing inserted).
Otherwise the new user is logged in and the client is redirected home. -/
def register (genHash : String → String) (db : DB) (form : Option RegForm) :
    DB × RegisterOutcome :=
  match form with
  | none => (db, .renderForm)
  | some f =>
    let newUser : User :=
      { id := db.nextUserId, email := f.email
        password := genHash f.password, name := pyTitle f.name }
    if emailTaken db f.email then
      (db, .integrityError)
    else
      ({ db with users := db.users ++ [newUser], nextUserId := db.nextUserId + 1 },
       .loggedInRedirect newUser.id)

/-- Outcome of the `login` handler. Only `redirectHome` establishes a
session binding. -/
inductive LoginOutcome where
  | redirectHome (sessionUid : Nat)
  | flashInvalidPassword
  | flashUserNotFound
  | renderForm
deriving DecidableEq

/-- The `login` handler: look the user up by email
(`User.query.filter_by(email=...).first()`); verify the hash; flash
"Invalid Password! Please try again." or "No user found! Please try
again." on failure, re-rendering the form; bind the session and redirect
home on success. Writes nothing. -/
def login (checkHash : String → String → Bool) (db : DB)
    (form : Option LoginForm) : LoginOutcome :=
  match form with
  | none => .renderForm
  | some f =>
    match db.users.find? (fun u => decide (u.email = f.email)) with
    | some user =>
      if checkHash user.password f.password then
        .redirectHome user.id
      else
        .flashInvalidPassword
    | none => .flashUserNotFound

/-- Outcome of the `show_post` handler; the payload is the id of the
post passed to the template (`none` when the lookup returned `None`). -/
inductive ShowOutcome where
  | render (postId : Option Nat)
  | renderWithFlash (postId : Option Nat)
deriving DecidableEq

/-- The `show_post` handler: fetch the post by id (`query.get`, may be
`None`); on a valid comment submission by an authenticated user insert a
comment whose author is the current user and whose parent post is the
lookup result (null when the post does not exist); an unauthenticated
submission only flashes "You need to login or register to comment.";
finally render the detail template. -/
def show_post (db : DB) (current : Option User) (postId : Nat)
    (form : Option CommentFormData) : DB × ShowOutcome :=
  let requested := db.posts.find? (fun p => decide (p.id = postId))
  match form with
  | some f =>
    match current with
    | some u =>
      let c : Comment :=
        { id := db.nextCommentId, authorRef := some u.id
          postRef := requested.map (fun p => p.id), text := f.commentText }
      ({ db with comments := db.comments ++ [c]
                 nextCommentId := db.nextCommentId + 1 },
       .render (requested.map (fun p => p.id)))
    | none => (db, .renderWithFlash (requested.map (fun p => p.id)))
  | none => (db, .render (requested.map (fun p => p.id)))

/-- Outcome of the three admin handlers (`add_new_post`, `edit_post`,
`delete_post`): `redirectLogin` is the `@login_required` rejection,
`forbidden` the `abort(403)` of `@admin_only`, `integrityError` an
uncaught uniqueness violation at commit, `noneTypeCrash` an uncaught
error from using the `None` result of `query.get`,
`attributeErrorCrash` the uncaught `AttributeError` raised by assigning
a plain string to the `author` relationship attribute. -/
inductive AdminOutcome where
  | redirectLogin
  | forbidden
  | renderForm
  | redirectHome
  | redirectShow (postId : Nat)
  | integrityError
  | noneTypeCrash
  | attributeErrorCrash
deriving DecidableEq

/-- The `add_new_post` handler with its guard chain: `@login_required`
first (anonymous → redirect to login), then `@admin_only`
(`current_user.id != 1` → `abort(403)`); then on a valid submission
insert a post authored by the current user and dated with today's
display-formatted date, and redirect home; a duplicate title raises an
uncaught `IntegrityError` at commit. -/
def add_new_post (db : DB) (current : Option User) (today : String)
    (form : Option PostForm) : DB × AdminOutcome :=
  match current with
  | none => (db, .redirectLogin)
  | some u =>
    if u.id ≠ 1 then (db, .forbidden)
    else
      match form with
      | none => (db, .renderForm)
      | some f =>
        let p : BlogPost :=
          { id := db.nextPostId, author := .ref u.id, title := f.title
            subtitle := f.subtitle, date := today, body := f.body
            imgUrl := f.imgUrl }
        if titleTaken db f.title then
          (db, .integrityError)
        else
          ({ db with posts := db.posts ++ [p], nextPostId := db.nextPostId + 1 },
           .redirectHome)

/-- The `edit_post` handler with its guard chain. The post is fetched by
id; a `None` result crashes at `post.title` while building the edit form
(uncaught `AttributeError`). On a valid submission the handler mutates
the in-session object's title, subtitle and image URL, then executes
`post.author = current_user.name`: `author` is a `back_populates`
relationship attribute, so assigning a plain string to it raises an
uncaught `AttributeError` (`'str' object has no attribute
'_sa_instance_state'`) before `db.session.commit()` is ever reached —
every valid admin edit crashes, nothing is flushed, and the database is
unchanged. -/
def edit_post (db : DB) (current : Option User) (postId : Nat)
    (form : Option PostForm) : DB × AdminOutcome :=
  match current with
  | none => (db, .redirectLogin)
  | some u =>
    if u.id ≠ 1 then (db, .forbidden)
    else
      match db.posts.find? (fun p => decide (p.id = postId)) with
      | none => (db, .noneTypeCrash)
      | some post =>
        match form with
        | none => (db, .renderForm)
        | some f => (db, .attributeErrorCrash)

/-- The `delete_post` handler with its guard chain. The post is fetched
by id; a `None` result crashes at `db.session.delete(post_to_delete)`
(uncaught unmapped-instance error, nothing deleted). Otherwise the post
row is deleted and the ORM nulls out the parent-post foreign key of its
comments (no delete cascade is configured), then the client is
redirected home. -/
def delete_post (db : DB) (current : Option User) (postId : Nat) :
    DB × AdminOutcome :=
  match current with
  | none => (db, .redirectLogin)
  | some u =>
    if u.id ≠ 1 then (db, .forbidden)
    else
      match db.posts.find? (fun p => decide (p.id = postId)) with
      | none => (db, .noneTypeCrash)
      | some _ =>
        ({ db with
             posts := db.posts.filter (fun p => decide (p.id ≠ postId))
             comments := db.comments.map (fun c =>
               if c.postRef = some postId then { c with postRef := none } else c) },
         .redirectHome)

/-- The `get_all_posts` view (`/`): read every post row and render the
index; total, it performs no write. -/
def get_all_posts (db : DB) : List BlogPost :=
  db.posts

/-- The startup configuration of the session-signing secret:
`app.config['SECRET_KEY'] = os.environ.get('SECRET_KEY')`. `os.environ.get`
returns `None` when the variable is absent. -/
def secretKey (env : String → Option String) : Option String :=
  env "SECRET_KEY"

/-- Result of application startup: `started` carries the configured
secret (possibly `none`); `fatalMissingSecret` is the startup-fatal
failure the spec requires when the secret is absent. -/
inductive StartupOutcome where
  | started (secret : Option String)
  | fatalMissingSecret
deriving DecidableEq

/-- Application startup as written in the source: the secret is read
with `os.environ.get` and stored as-is; startup never fails, even when
the secret is absent. -/
def appStartup (env : String → Option String) : StartupOutcome :=
  .started (secretKey env)

/-- The databases reachable from the freshly created database by the
state-changing handlers (login/logout and the static pages write
nothing). -/
inductive Reachable : DB → Prop where
  | init : Reachable initDB
  | step_register (g : String → String) (f : Option RegForm) {db : DB} :
      Reachable db → Reachable (register g db f).1
  | step_show (current : Option User) (postId : Nat)
      (f : Option CommentFormData) {db : DB} :
      Reachable db → Reachable (show_post db current postId f).1
  | step_new (current : Option User) (today : String) (f : Option PostForm)
      {db : DB} :
      Reachable db → Reachable (add_new_post db current today f).1
  | step_edit (current : Option User) (postId : Nat) (f : Option PostForm)
      {db : DB} :
      Reachable db → Reachable (edit_post db current postId f).1
  | step_delete (current : Option User) (postId : Nat) {db : DB} :
      Reachable db → Reachable (delete_post db current postId).1

/-- User ids are assigned sequentially from 1 in insertion order, so the
first row ever inserted has id 1. -/
def usersSequential (db : DB) : Prop :=
  db.nextUserId = db.users.length + 1 ∧
  db.users.map User.id = List.range' 1 db.users.length

/-- Concrete password hasher used in witnesses. -/
def gH : String → String := fun s => String.append s "#h"

/-- Concrete hash checker used in witnesses, matching `gH`. -/
def chkH : String → String → Bool :=
  fun stored pw => decide (stored = String.append pw "#h")

/-- Witness registration form for the first user. -/
def regA : RegForm := { email := "a@x.com", password := "pwa", name := "alice smith" }

/-- Witness registration form for the second user. -/
def regB : RegForm := { email := "b@x.com", password := "pwb", name := "bob jones" }

/-- Database after registering the first user. -/
def dbA : DB := (register gH initDB (some regA)).1

/-- Database after registering two users. -/
def dbAB : DB := (register gH dbA (some regB)).1

/-- The first registered user as stored. -/
def userA : User :=
  { id := 1, email := "a@x.com", password := gH "pwa", name := pyTitle "alice smith" }

/-- The second registered user as stored. -/
def userB : User :=
  { id := 2, email := "b@x.com", password := gH "pwb", name := pyTitle "bob jones" }

/-- Witness post form. -/
def postF : PostForm := { title := "T1", subtitle := "S1", body := "B1", imgUrl := "I1" }

/-- Database after the admin additionally creates one post (id 1). -/
def dbP : DB := (add_new_post dbAB (some userA) "May 01, 2025" (some postF)).1

/-- The post stored in `dbP`. -/
def post1 : BlogPost :=
  { id := 1, author := .ref 1, title := "T1", subtitle := "S1"
    date := "May 01, 2025", body := "B1", imgUrl := "I1" }

theorem codeCase (a b : Nat) (h : lowerCode a = lowerCode b) :
    upperCode a = upperCode b ∧ (isAlphaCode a ↔ isAlphaCode b) ∧
      (¬ isAlphaCode a → a = b) := by
  unfold lowerCode at h
  unfold upperCode isAlphaCode
  split_ifs at * <;> omega

theorem titleCodes_congr :
    ∀ (l₁ l₂ : List Nat) (flag : Bool),
      l₁.map lowerCode = l₂.map lowerCode →
      titleCodes flag l₁ = titleCodes flag l₂ := by
  intro l₁
  induction l₁ with
  | nil =>
    intro l₂ flag h
    cases l₂ with
    | nil => rfl
    | cons b t₂ => simp at h
  | cons a t ih =>
    intro l₂ flag h
    cases l₂ with
    | nil => simp at h
    | cons b t₂ =>
      simp only [List.map_cons, List.cons.injEq] at h
      obtain ⟨h1, h2⟩ := h
      obtain ⟨hup, hiff, hnee⟩ := codeCase a b h1
      by_cases ha : isAlphaCode a
      · have hb : isAlphaCode b := hiff.mp ha
        rw [titleCodes, titleCodes, if_pos ha, if_pos hb, ih t₂ true h2]
        cases flag with
        | true => rw [if_pos rfl, if_pos rfl, h1]
        | false => simp [hup]
      · have hb : ¬ isAlphaCode b := fun hx => ha (hiff.mpr hx)
        rw [titleCodes, titleCodes, if_neg ha, if_neg hb, hnee ha, ih t₂ false h2]

theorem show_post_frame (db : DB) (current : Option User) (postId : Nat)
    (f : Option CommentFormData) :
    (show_post db current postId f).1.users = db.users ∧
    (show_post db current postId f).1.nextUserId = db.nextUserId ∧
    (show_post db current postId f).1.posts = db.posts := by
  cases f <;> cases current <;> simp [show_post]

theorem add_new_post_frame (db : DB) (current : Option User) (today : String)
    (f : Option PostForm) :
    (add_new_post db current today f).1.users = db.users ∧
    (add_new_post db current today f).1.nextUserId = db.nextUserId := by
  cases current with
  | none => simp [add_new_post]
  | some u =>
    by_cases hu : u.id ≠ 1
    · simp [add_new_post, hu]
    · cases f with
      | none => simp [add_new_post, hu]
      | some pf =>
        by_cases ht : titleTaken db pf.title <;> simp [add_new_post, hu, ht]

theorem edit_post_frame (db : DB) (current : Option User) (postId : Nat)
    (f : Option PostForm) :
    (edit_post db current postId f).1.users = db.users ∧
    (edit_post db current postId f).1.nextUserId = db.nextUserId := by
  cases current with
  | none => simp [edit_post]
  | some u =>
    by_cases hu : u.id ≠ 1
    · simp [edit_post, hu]
    · cases hfind : db.posts.find? (fun p => decide (p.id = postId)) with
      | none => simp [edit_post, hu, hfind]
      | some post =>
        cases f with
        | none => simp [edit_post, hu, hfind]
        | some pf => simp [edit_post, hu, hfind]

theorem delete_post_frame (db : DB) (current : Option User) (postId : Nat) :
    (delete_post db current postId).1.users = db.users ∧
    (delete_post db current postId).1.nextUserId = db.nextUserId := by
  cases current with
  | none => simp [delete_post]
  | some u =>
    by_cases hu : u.id ≠ 1
    · simp [delete_post, hu]
    · cases hfind : db.posts.find? (fun p => decide (p.id = postId)) with
      | none => simp [delete_post, hu, hfind]
      | some post => simp [delete_post, hu, hfind]

theorem register_ok (g : String → String) (db : DB) (f : RegForm)
    (h : emailTaken db f.email = false) :
    register g db (some f) =
      ({ db with
           users := db.users ++
             [{ id := db.nextUserId, email := f.email
                password := g f.password, name := pyTitle f.name }]
           nextUserId := db.nextUserId + 1 },
       .loggedInRedirect db.nextUserId) := by
  simp [register, h]

theorem reachable_usersSequential {db : DB} (h : Reachable db) :
    usersSequential db := by
  induction h with
  | init => exact ⟨rfl, rfl⟩
  | step_register g f _ ih =>
    rename_i dbp hprem
    rcases f with _ | rf
    · exact ih
    · by_cases he : emailTaken dbp rf.email
      · simpa [register, he] using ih
      · obtain ⟨h1, h2⟩ := ih
        rw [register_ok _ _ _ (by simpa using he)]
        constructor
        · simp [h1]
        · simp only [List.map_append, List.map_cons, List.map_nil, h2,
            List.length_append, List.length_cons, List.length_nil]
          rw [List.range'_concat]
          simp [h1]
          omega
  | step_show current postId f _ ih =>
    obtain ⟨hu, hn, -⟩ := show_post_frame _ current postId f
    unfold usersSequential at *
    rw [hu, hn]
    exact ih
  | step_new current today f _ ih =>
    obtain ⟨hu, hn⟩ := add_new_post_frame _ current today f
    unfold usersSequential at *
    rw [hu, hn]
    exact ih
  | step_edit current postId f _ ih =>
    obtain ⟨hu, hn⟩ := edit_post_frame _ current postId f
    unfold usersSequential at *
    rw [hu, hn]
    exact ih
  | step_delete current postId _ ih =>
    obtain ⟨hu, hn⟩ := delete_post_frame _ current postId
    unfold usersSequential at *
    rw [hu, hn]
    exact ih

theorem firstUser_id {db : DB} (h : Reachable db) {first : User}
    (hf : db.users.head? = some first) : first.id = 1 := by
  obtain ⟨-, h2⟩ := reachable_usersSequential h
  obtain ⟨l, hl⟩ : ∃ l, db.users = first :: l := by
    cases hu : db.users with
    | nil => rw [hu] at hf; cases hf
    | cons a l =>
      rw [hu] at hf
      simp only [List.head?_cons, Option.some.injEq] at hf
      exact ⟨l, by rw [hf]⟩
  rw [hl] at h2
  simp only [List.map_cons, List.length_cons] at h2
  rw [List.range'_succ] at h2
  exact (List.cons.injEq _ _ _ _).mp h2 |>.1

/-- C1: in every reachable database, an authenticated user whose identity
differs from the first-created user's is rejected with Forbidden (403) by
`add_new_post`, `edit_post` and `delete_post` — the database is returned
unchanged, so the handler body never runs — while for the first-created
user the `admin_only` guard never produces Forbidden. -/
theorem adminOnly_first_user_only (db : DB) (hdb : Reachable db)
    (first u : User) (hf : db.users.head? = some first) (hu : u ∈ db.users)
    (hne : u.id ≠ first.id) (today : String) (pf cf : Option PostForm)
    (pid1 pid2 : Nat) :
    add_new_post db (some u) today pf = (db, .forbidden) ∧
    edit_post db (some u) pid1 cf = (db, .forbidden) ∧
    delete_post db (some u) pid2 = (db, .forbidden) ∧
    (add_new_post db (some first) today pf).2 ≠ .forbidden ∧
    (edit_post db (some first) pid1 cf).2 ≠ .forbidden ∧
    (delete_post db (some first) pid2).2 ≠ .forbidden := by
  have h1 : first.id = 1 := firstUser_id hdb hf
  have hu1 : u.id ≠ 1 := h1 ▸ hne
  refine ⟨by simp [add_new_post, hu1], by simp [edit_post, hu1],
    by simp [delete_post, hu1], ?_, ?_, ?_⟩
  · cases pf with
    | none => simp [add_new_post, h1]
    | some f => simp [add_new_post, h1]; split_ifs <;> simp
  · cases hfind : db.posts.find? (fun p => decide (p.id = pid1)) with
    | none => simp [edit_post, h1, hfind]
    | some post =>
      cases cf with
      | none => simp [edit_post, h1, hfind]
      | some f => simp [edit_post, h1, hfind]
  · cases hfind : db.posts.find? (fun p => decide (p.id = pid2)) with
    | none => simp [delete_post, h1, hfind]
    | some post => simp [delete_post, h1, hfind]

/-- Witness for C1 at the database obtained by registering two users:
the second user (id 2) is rejected by all three admin actions. -/
theorem adminOnly_first_user_only_witness :
    dbAB.users.head? = some userA ∧ userB ∈ dbAB.users ∧ userB.id ≠ userA.id ∧
    add_new_post dbAB (some userB) "May 01, 2025" (some postF) = (dbAB, .forbidden) ∧
    edit_post dbAB (some userB) 1 (some postF) = (dbAB, .forbidden) ∧
    delete_post dbAB (some userB) 1 = (dbAB, .forbidden) := by
  have h := adminOnly_first_user_only dbAB
    (Reachable.step_register gH (some regB)
      (Reachable.step_register gH (some regA) Reachable.init))
    userA userB (by decide) (by decide) (by decide)
    "May 01, 2025" (some postF) (some postF) 1 1
  exact ⟨by decide, by decide, by decide, h.1, h.2.1, h.2.2.1⟩

/-- C2 (code bug): `register` performs no duplicate-email check, so when
a user with the submitted email already exists the commit hits the
uniqueness constraint and the handler crashes with an uncaught
`IntegrityError`: no row is inserted, but no user-visible DuplicateEmail
message is produced either — the claimed "does not crash, user-visible
message" behavior does not hold. -/
theorem register_duplicate_email_crashes (g : String → String) (db : DB)
    (f : RegForm) (u : User) (hu : u ∈ db.users) (he : u.email = f.email) :
    register g db (some f) = (db, .integrityError) := by
  have ht : emailTaken db f.email = true := by
    unfold emailTaken
    rw [List.any_eq_true]
    exact ⟨u, hu, by simp [he]⟩
  simp [register, ht]

/-- Witness for C2: registering `a@x.com` a second time crashes with the
raw storage-engine error and leaves the database unchanged. -/
theorem register_duplicate_email_crashes_witness :
    userA ∈ dbA.users ∧
    register gH dbA (some { email := "a@x.com", password := "q", name := "n" }) =
      (dbA, .integrityError) :=
  ⟨by decide,
   register_duplicate_email_crashes gH dbA
     { email := "a@x.com", password := "q", name := "n" } userA
     (by decide) (by decide)⟩

/-- C3 counterexample: the admin deleting nonexistent post id 99 does
crash — `query.get` returns `None` and `db.session.delete(None)` raises —
refuting "invoking the delete action does not crash". -/
theorem delete_nonexistent_crashes_cex :
    delete_post dbP (some userA) 99 = (dbP, .noneTypeCrash) := by decide

/-- C3 amended: deleting a nonexistent post id by the admin raises an
uncaught error (the request crashes) but commits nothing, so the
database is unchanged and the list-posts view afterwards still succeeds,
returning the same posts. -/
theorem delete_nonexistent_amended (db : DB) (u : User) (postId : Nat)
    (hu1 : u.id = 1)
    (hnone : db.posts.find? (fun p => decide (p.id = postId)) = none) :
    delete_post db (some u) postId = (db, .noneTypeCrash) ∧
    get_all_posts (delete_post db (some u) postId).1 = db.posts := by
  simp [delete_post, hu1, hnone, get_all_posts]

/-- Witness for C3's amended claim at a concrete database with one post. -/
theorem delete_nonexistent_amended_witness :
    userA.id = 1 ∧
    dbP.posts.find? (fun p => decide (p.id = 99)) = none ∧
    delete_post dbP (some userA) 99 = (dbP, .noneTypeCrash) ∧
    get_all_posts (delete_post dbP (some userA) 99).1 = dbP.posts := by
  have h := delete_nonexistent_amended dbP userA 99 (by decide) (by decide)
  exact ⟨by decide, by decide, h.1, h.2⟩

/-- C4: on a valid login submission, if the user is found by email but
hash verification fails the outcome is the InvalidPassword flash with
the form re-rendered and no session binding; if no user holds the email,
the outcome is the distinct UserNotFound flash, again with no session
binding. -/
theorem login_failure_modes (chk : String → String → Bool) (db : DB)
    (f : LoginForm) :
    (∀ u, db.users.find? (fun x => decide (x.email = f.email)) = some u →
       chk u.password f.password = false →
       login chk db (some f) = .flashInvalidPassword ∧
       ∀ uid, login chk db (some f) ≠ .redirectHome uid) ∧
    (db.users.find? (fun x => decide (x.email = f.email)) = none →
       login chk db (some f) = .flashUserNotFound ∧
       ∀ uid, login chk db (some f) ≠ .redirectHome uid) := by
  constructor
  · intro u hfind hchk
    have : login chk db (some f) = .flashInvalidPassword := by
      simp [login, hfind, hchk]
    exact ⟨this, fun uid => by simp [this]⟩
  · intro hnone
    have : login chk db (some f) = .flashUserNotFound := by
      simp [login, hnone]
    exact ⟨this, fun uid => by simp [this]⟩

/-- Witness for C4: wrong password for a registered email flashes
InvalidPassword; an unregistered email flashes UserNotFound. -/
theorem login_failure_modes_witness :
    dbAB.users.find? (fun x => decide (x.email = "a@x.com")) = some userA ∧
    login chkH dbAB (some { email := "a@x.com", password := "bad" }) =
      .flashInvalidPassword ∧
    dbAB.users.find? (fun x => decide (x.email = "z@x.com")) = none ∧
    login chkH dbAB (some { email := "z@x.com", password := "bad" }) =
      .flashUserNotFound :=
  ⟨by decide,
   ((login_failure_modes chkH dbAB { email := "a@x.com", password := "bad" }).1
     userA (by decide) (by decide)).1,
   by decide,
   ((login_failure_modes chkH dbAB { email := "z@x.com", password := "bad" }).2
     (by decide)).1⟩

/-- C5: for a valid comment submission on the detail view of an existing
post, an unauthenticated session creates no comment row (only the flash
outcome, database unchanged), while an authenticated session creates
exactly one comment row whose author reference is the current user and
whose parent-post reference is the viewed post. -/
theorem comment_requires_auth (db : DB) (u : User) (postId : Nat)
    (f : CommentFormData) (post : BlogPost)
    (hp : db.posts.find? (fun p => decide (p.id = postId)) = some post) :
    show_post db none postId (some f) = (db, .renderWithFlash (some post.id)) ∧
    (show_post db (some u) postId (some f)).1.comments =
      db.comments ++
        [{ id := db.nextCommentId, authorRef := some u.id
           postRef := some post.id, text := f.commentText }] ∧
    (show_post db (some u) postId (some f)).1.users = db.users ∧
    (show_post db (some u) postId (some f)).1.posts = db.posts := by
  refine ⟨?_, ?_, ?_, ?_⟩ <;> simp [show_post, hp]

/-- Witness for C5 on the concrete database holding post 1. -/
theorem comment_requires_auth_witness :
    dbP.posts.find? (fun p => decide (p.id = 1)) = some post1 ∧
    show_post dbP none 1 (some { commentText := "hi" }) =
      (dbP, .renderWithFlash (some 1)) ∧
    (show_post dbP (some userB) 1 (some { commentText := "hi" })).1.comments =
      dbP.comments ++
        [{ id := 1, authorRef := some 2, postRef := some 1, text := "hi" }] := by
  have h := comment_requires_auth dbP userB 1 { commentText := "hi" } post1
    (by decide)
  exact ⟨by decide, h.1, h.2.1⟩

/-- C7 counterexample: an authenticated, valid comment submission on
nonexistent post id 5 (the database holds no posts at all) still inserts
a comment row — with a null parent-post reference — so the referenced
parent Post does not exist at creation time, refuting the claimed
invariant. -/
theorem comment_dangling_parent_cex :
    (show_post dbA (some userA) 5 (some { commentText := "hi" })).1.comments =
      [{ id := 1, authorRef := some 1, postRef := none, text := "hi" }] ∧
    dbA.posts = [] := by decide

/-- C7 amended: every comment created by submission has exactly one
author — the current authenticated user, who exists in the users table —
but its parent-post reference is only the lookup result of the requested
id: it names an existing post when the id resolves and is null when it
does not. -/
theorem comment_refs_amended (db : DB) (u : User) (postId : Nat)
    (f : CommentFormData) (hu : u ∈ db.users) :
    (show_post db (some u) postId (some f)).1.comments =
      db.comments ++
        [{ id := db.nextCommentId, authorRef := some u.id
           postRef := (db.posts.find? (fun p => decide (p.id = postId))).map
             (fun p => p.id)
           text := f.commentText }] ∧
    (∃ x ∈ db.users, x.id = u.id) ∧
    (∀ post, db.posts.find? (fun p => decide (p.id = postId)) = some post →
       post ∈ db.posts) :=
  ⟨by simp [show_post], ⟨u, hu, rfl⟩,
   fun post hp => List.mem_of_find?_eq_some hp⟩

/-- Witness for C7's amended claim: on the post-free database the created
comment carries the existing author id 1 and a null parent-post
reference. -/
theorem comment_refs_amended_witness :
    userA ∈ dbA.users ∧
    (show_post dbA (some userA) 5 (some { commentText := "hi" })).1.comments =
      dbA.comments ++
        [{ id := dbA.nextCommentId, authorRef := some userA.id
           postRef := (dbA.posts.find? (fun p => decide (p.id = 5))).map
             (fun p => p.id)
           text := "hi" }] :=
  ⟨by decide,
   (comment_refs_amended dbA userA 5 { commentText := "hi" } (by decide)).1⟩

/-- C6 (code bug): every valid admin edit of an existing post crashes —
`post.author = current_user.name` assigns a plain string to the `author`
relationship attribute and raises an uncaught `AttributeError` before
`db.session.commit()` — so the request fails, the database is unchanged,
and no edit ever stores the submitted title, subtitle, body or image or
the editor's name; the claimed successful update never happens in the
program. -/
theorem edit_post_valid_always_crashes (db : DB) (u : User) (postId : Nat)
    (f : PostForm) (post : BlogPost) (hu1 : u.id = 1)
    (hp : db.posts.find? (fun p => decide (p.id = postId)) = some post) :
    edit_post db (some u) postId (some f) = (db, .attributeErrorCrash) := by
  simp [edit_post, hu1, hp]

/-- Witness for C6's failing input: the admin submits a valid edit form
for the existing post 1 and the request crashes with the database
unchanged. -/
theorem edit_post_valid_always_crashes_witness :
    userA.id = 1 ∧
    dbP.posts.find? (fun p => decide (p.id = 1)) = some post1 ∧
    edit_post dbP (some userA) 1
        (some { title := "T2", subtitle := "S2", body := "B2"
                imgUrl := "I2" }) = (dbP, .attributeErrorCrash) := by
  have h := edit_post_valid_always_crashes dbP userA 1
    { title := "T2", subtitle := "S2", body := "B2", imgUrl := "I2" }
    post1 (by decide) (by decide)
  exact ⟨by decide, by decide, h⟩

/-- C8: a valid new-post submission by the admin with a not-yet-used
title inserts one post; fetching it by its id returns a row whose title,
subtitle, body and image URL equal the submitted values, whose author is
the current user, and whose date is the creation day's display string;
the handler redirects home. -/
theorem add_new_post_roundtrip (db : DB) (u : User) (today : String)
    (f : PostForm) (hu1 : u.id = 1) (hfresh : titleTaken db f.title = false)
    (hid : ∀ p ∈ db.posts, p.id ≠ db.nextPostId) :
    (add_new_post db (some u) today (some f)).2 = .redirectHome ∧
    (add_new_post db (some u) today (some f)).1.posts.find?
        (fun p => decide (p.id = db.nextPostId)) =
      some { id := db.nextPostId, author := .ref u.id, title := f.title
             subtitle := f.subtitle, date := today, body := f.body
             imgUrl := f.imgUrl } := by
  have hn : db.posts.find? (fun p => decide (p.id = db.nextPostId)) = none :=
    List.find?_eq_none.mpr (fun x hx => by simpa using hid x hx)
  constructor
  · simp [add_new_post, hu1, hfresh]
  · simp only [add_new_post, hu1, ne_eq, not_true_eq_false, if_false, hfresh,
      Bool.false_eq_true]
    rw [List.find?_append, hn]
    simp

/-- Witness for C8: the admin creates a post in the two-user database and
fetches it back by its id with identical fields. -/
theorem add_new_post_roundtrip_witness :
    userA.id = 1 ∧ titleTaken dbAB "T1" = false ∧
    (add_new_post dbAB (some userA) "May 01, 2025" (some postF)).2 =
      .redirectHome ∧
    (add_new_post dbAB (some userA) "May 01, 2025" (some postF)).1.posts.find?
        (fun p => decide (p.id = dbAB.nextPostId)) =
      some { id := dbAB.nextPostId, author := .ref userA.id, title := "T1"
             subtitle := "S1", date := "May 01, 2025", body := "B1"
             imgUrl := "I1" } := by
  have h := add_new_post_roundtrip dbAB userA "May 01, 2025" postF
    (by decide) (by decide) (by decide)
  exact ⟨by decide, by decide, h.1, h.2⟩

/-- C9 (code bug): the source reads the session secret with
`os.environ.get('SECRET_KEY')`, so when the variable is absent startup
still succeeds with a `None` secret instead of failing fatally as the
claim requires. -/
theorem missing_secret_key_starts_anyway :
    appStartup (fun _ => none) = .started none ∧
    appStartup (fun _ => none) ≠ .fatalMissingSecret := by
  exact ⟨rfl, by simp [appStartup, secretKey]⟩

/-- C10: a successful registration stores not the submitted name
verbatim but its title-cased form `pyTitle` (Python `str.title()`), and
`pyTitle` identifies strings that differ only in ASCII letter case, so
two such submissions produce the same stored name. -/
theorem register_name_titlecased (g : String → String) (db : DB)
    (f : RegForm) (hfresh : emailTaken db f.email = false) :
    (register g db (some f)).1.users =
      db.users ++
        [{ id := db.nextUserId, email := f.email, password := g f.password
           name := pyTitle f.name }] ∧
    (∀ a b : String,
       (strCodes a).map lowerCode = (strCodes b).map lowerCode →
       pyTitle a = pyTitle b) := by
  constructor
  · simp [register, hfresh]
  · intro a b h
    unfold pyTitle
    rw [titleCodes_congr _ _ _ h]

/-- Witness for C10: a fresh registration stores the title-cased name,
and two case-variants of the same name title-case identically. -/
theorem register_name_titlecased_witness :
    emailTaken initDB "c@x.com" = false ∧
    (register gH initDB
        (some { email := "c@x.com", password := "p", name := "jOHN mcDOE" })).1.users =
      initDB.users ++
        [{ id := initDB.nextUserId, email := "c@x.com", password := gH "p"
           name := pyTitle "jOHN mcDOE" }] ∧
    pyTitle "jOHN mcDOE" = pyTitle "John Mcdoe" := by
  have h := register_name_titlecased gH initDB
    { email := "c@x.com", password := "p", name := "jOHN mcDOE" } (by decide)
  exact ⟨by decide, h.1, h.2 "jOHN mcDOE" "John Mcdoe" (by decide)⟩

end Blog
